import Mathlib

/-!
Shallow embedding of the HID session subsystem of the WinDeCon repository
(`src/src/hid/hid_device.rs`, with the alternate draft in
`src/hid/src/hid_device.rs`), together with theorems settling the frozen
claims about it.

Modelling conventions:
* machine integers (`u8`, `u16`, `usize`) are `Nat`; no arithmetic in the
  embedded code can overflow at the values the source uses;
* fallible USB operations (rusb calls) are parameters of type
  `Except UsbError _` supplied by the environment, so a theorem quantifies
  over every outcome the device could produce;
* byte buffers are `List Nat`; a device that transfers `len` bytes into a
  zero-initialised buffer of length `n` yields `bytes ++ List.replicate
  (n - len) 0`;
* the observable side effects a claim talks about (control transfers,
  interface claims/releases, lock operations, callback invocations) are
  reified as explicit event lists returned next to the result.
-/

/-- The subset of the `rusb::Error` variants this program matches on or
produces (`NoDevice`, `Timeout`, `Other`), plus a few further variants so
that error values stay abstract where the source does not inspect them. -/
inductive UsbError where
  | NoDevice
  | NotFound
  | Busy
  | Timeout
  | Pipe
  | Access
  | Other
deriving DecidableEq, Repr

/-- `rusb::Direction` (transfer / endpoint direction). -/
inductive Direction where
  | In
  | Out
deriving DecidableEq, Repr

/-- `rusb::RequestType` (bits 5..6 of `bmRequestType`). -/
inductive RequestType where
  | Standard
  | Class
  | Vendor
deriving DecidableEq, Repr

/-- `rusb::Recipient` (bits 0..4 of `bmRequestType`). -/
inductive Recipient where
  | Device
  | Interface
  | Endpoint
deriving DecidableEq, Repr

/-- `rusb::request_type`: builds the `bmRequestType` byte from direction,
request type and recipient, exactly as the rusb helper does
(`In => 0x80`, `Class => 0x20`, `Interface => 0x01`, or-ed together). -/
def request_type (dir : Direction) (ty : RequestType) (recip : Recipient) : Nat :=
  (match dir with
    | Direction.Out => 0x00
    | Direction.In => 0x80) |||
  (match ty with
    | RequestType.Standard => 0x00
    | RequestType.Class => 0x20
    | RequestType.Vendor => 0x40) |||
  (match recip with
    | Recipient.Device => 0x00
    | Recipient.Interface => 0x01
    | Recipient.Endpoint => 0x02)

/-- The state of `HidDevice` (main variant, `src/src/hid/hid_device.rs`).
`handle_present` models `handle.is_some()`; `on_input_received` models
whether a callback is registered; the two thread fields model whether the
corresponding `JoinHandle` is present. -/
structure HidDevice where
  handle_present : Bool
  vid : Nat
  pid : Nat
  config : Nat
  interface : Nat
  setting : Nat
  endpoint : Nat
  input_buffer_len : Nat
  control_buffer_len : Nat
  on_input_received : Bool
  read_thread : Bool
  event_thread : Bool
  stop_flag : Bool
  active : Bool
deriving Repr

/-- `HidDevice::new(vid, pid)` (the `Ok` case of context creation). -/
def new_hid (vid pid : Nat) : HidDevice :=
  { handle_present := false
    vid := vid
    pid := pid
    config := 0
    interface := 0
    setting := 0
    endpoint := 0x00
    input_buffer_len := 64
    control_buffer_len := 64
    on_input_received := false
    read_thread := false
    event_thread := false
    stop_flag := false
    active := false }

/-- A control transfer issued on endpoint 0, as observed on the wire:
`bmRequestType`, `bRequest`, `wValue`, `wIndex`, the length of the data
stage, and (for host-to-device transfers) the payload bytes. -/
structure ControlTransfer where
  bmRequestType : Nat
  bRequest : Nat
  wValue : Nat
  wIndex : Nat
  dataLen : Nat
  dataOut : List Nat
deriving DecidableEq, Repr

/-- The error type of `HidDevice::request_feature_report`
(`Box<dyn Error>`): either a `rusb` error or a string message. -/
inductive FeatureError where
  | usb (e : UsbError)
  | msg (s : String)
deriving DecidableEq, Repr

/-- `HidDevice::request_feature_report` (main variant, lines 187-271).
`writeRes` is the outcome of `handle.write_control` (bytes written) and
`readRes` the outcome of `handle.read_control`, given as the bytes the
device transfers into the response buffer.  Returns the function's result
together with the list of control transfers issued, in order. -/
def request_feature_report (dev : HidDevice) (request : List Nat)
    (writeRes : Except UsbError Nat) (readRes : Except UsbError (List Nat)) :
    Except FeatureError (Nat × List Nat) × List ControlTransfer :=
  if dev.active = false then
    (Except.error (FeatureError.usb UsbError.NoDevice), [])
  else if dev.control_buffer_len < request.length then
    (Except.error (FeatureError.msg "Request length is greater than control buffer length"), [])
  else
    -- request_full = vec![0; control_buffer_len]; request_full[..request.len()] = request
    let request_full : List Nat :=
      request ++ List.replicate (dev.control_buffer_len - request.length) 0
    let setReport : ControlTransfer :=
      { bmRequestType := request_type Direction.Out RequestType.Class Recipient.Interface
        bRequest := 0x09
        wValue := 0x0300
        wIndex := dev.interface
        dataLen := request_full.length
        dataOut := request_full }
    match writeRes with
    | Except.error e => (Except.error (FeatureError.usb e), [setReport])
    | Except.ok _ =>
      let getReport : ControlTransfer :=
        { bmRequestType := request_type Direction.In RequestType.Class Recipient.Interface
          bRequest := 0x01
          wValue := 0x0300
          wIndex := dev.interface
          dataLen := dev.control_buffer_len
          dataOut := [] }
      match readRes with
      | Except.error e => (Except.error (FeatureError.usb e), [setReport, getReport])
      | Except.ok bytes =>
        -- response = vec![0; control_buffer_len] with `len` bytes written; truncate(len)
        let response : List Nat :=
          bytes ++ List.replicate (dev.control_buffer_len - bytes.length) 0
        let len : Nat := bytes.length
        (Except.ok (len, response.take len), [setReport, getReport])

/-- The error kinds of `std::io::Error` used by the alternate draft
(`src/hid/src/hid_device.rs`): `InvalidInput`, `NotConnected`, or a
wrapped rusb error (`ErrorKind::Other`). -/
inductive IoErrorKind where
  | InvalidInput
  | NotConnected
  | OtherUsb (e : UsbError)
deriving DecidableEq, Repr

/-- The fields of the alternate draft `HidDevice`
(`src/hid/src/hid_device.rs`) that `request_feature_report` reads. -/
structure Hid2Device where
  handle_present : Bool
  input_buffer_len : Nat
  interface : Nat
deriving DecidableEq, Repr

/-- `HidDevice::request_feature_report` (alternate draft, lines 129-196).
The request buffer reserves byte 0 for the report identifier, so the data
stage is `input_buffer_len + 1` bytes and `wValue = (3 <<< 8) |||
request_full[0]`. -/
def hid2_request_feature_report (dev : Hid2Device) (request : List Nat)
    (writeRes : Except UsbError Nat) (readRes : Except UsbError (List Nat)) :
    Except IoErrorKind (List Nat) × List ControlTransfer :=
  if dev.input_buffer_len < request.length then
    (Except.error IoErrorKind.InvalidInput, [])
  else if dev.handle_present = false then
    (Except.error IoErrorKind.NotConnected, [])
  else
    -- request_full = vec![0; input_buffer_len + 1]; request_full[1..1+len] = request
    let request_full : List Nat :=
      0 :: (request ++ List.replicate (dev.input_buffer_len - request.length) 0)
    let value : Nat := (3 <<< 8) ||| request_full.headD 0
    let setReport : ControlTransfer :=
      { bmRequestType := request_type Direction.Out RequestType.Class Recipient.Interface
        bRequest := 0x09
        wValue := value
        wIndex := dev.interface
        dataLen := request_full.length
        dataOut := request_full }
    match writeRes with
    | Except.error e => (Except.error (IoErrorKind.OtherUsb e), [setReport])
    | Except.ok _ =>
      let getReport : ControlTransfer :=
        { bmRequestType := request_type Direction.In RequestType.Class Recipient.Interface
          bRequest := 0x01
          wValue := value
          wIndex := dev.interface
          dataLen := dev.input_buffer_len + 1
          dataOut := [] }
      match readRes with
      | Except.error e => (Except.error (IoErrorKind.OtherUsb e), [setReport, getReport])
      | Except.ok bytes =>
        let response : List Nat :=
          bytes ++ List.replicate (dev.input_buffer_len + 1 - bytes.length) 0
        (Except.ok (response.take bytes.length), [setReport, getReport])

/-- The observable events of one iteration of the read loop
(`HidDevice::begin_read`, main variant): lock operations on the shared
`DeviceHandle` mutex, kernel-driver detach/attach, the interrupt read,
and callback invocations with their payload. -/
inductive ReadLoopEvent where
  | lockAcquire
  | detachKernel
  | readInterrupt
  | callbackInvoke (bytes : List Nat)
  | attachKernel
  | lockRelease
deriving DecidableEq, Repr

/-- True exactly on `callbackInvoke` events. -/
def isCallbackEvent : ReadLoopEvent → Bool
  | ReadLoopEvent.callbackInvoke _ => true
  | _ => false

/-- True exactly on `lockRelease` events. -/
def isReleaseEvent : ReadLoopEvent → Bool
  | ReadLoopEvent.lockRelease => true
  | _ => false

/-- One iteration of the `read_loop` thread body (main variant, lines
331-367), after the stop-flag check came back false.  `kernelActive` is
the outcome `Ok(true)` of `kernel_driver_active`; `readRes` is the
outcome of `read_interrupt`, given as the bytes the device transfers into
the freshly blanked buffer of length `ibl`.  Returns the events of the
iteration in program order: the mutex guard is acquired first and dropped
last, after any callback ran. -/
def iteration_trace (ibl : Nat) (kernelActive : Bool)
    (readRes : Except UsbError (List Nat)) (hasCb : Bool) : List ReadLoopEvent :=
  [ReadLoopEvent.lockAcquire]
    ++ (if kernelActive then [ReadLoopEvent.detachKernel] else [])
    ++ [ReadLoopEvent.readInterrupt]
    ++ (match readRes with
        | Except.ok bytes =>
          -- Ok(len) if len > 0 => if let Some(cb) = on_input_received { cb(buffer[..len].to_vec()) }
          if 0 < bytes.length then
            if hasCb then
              [ReadLoopEvent.callbackInvoke
                ((bytes ++ List.replicate (ibl - bytes.length) 0).take bytes.length)]
            else []
          else []
        | Except.error _ => [])
    ++ (if kernelActive then [ReadLoopEvent.attachKernel] else [])
    ++ [ReadLoopEvent.lockRelease]

/-- The callback invocations of one read-loop iteration, in order. -/
def iteration_callbacks (ibl : Nat) (kernelActive : Bool)
    (readRes : Except UsbError (List Nat)) (hasCb : Bool) : List (List Nat) :=
  (iteration_trace ibl kernelActive readRes hasCb).filterMap fun e =>
    match e with
    | ReadLoopEvent.callbackInvoke bytes => some bytes
    | _ => none

/-- How a run of the read loop ended: `stopped` because the stop flag was
observed true, or `ranOut` because the simulated iteration inputs were
exhausted with the loop still running. -/
inductive LoopExit where
  | stopped
  | ranOut
deriving DecidableEq, Repr

/-- The `read_loop` thread body (main variant) over a list of simulated
iteration inputs, each `(stopFlagValue, kernelActive, readRes)`.  The loop
checks the stop flag, exits if it is true, and otherwise runs one
iteration; errors from `read_interrupt` fall into the `_ => {}` arm and
do not leave the loop.  Returns all callback payloads delivered and how
the run ended. -/
def read_loop (ibl : Nat) (hasCb : Bool) :
    List (Bool × Bool × Except UsbError (List Nat)) → List (List Nat) × LoopExit
  | [] => ([], LoopExit.ranOut)
  | (stop, kernelActive, readRes) :: rest =>
    if stop then ([], LoopExit.stopped)
    else
      let next := read_loop ibl hasCb rest
      (iteration_callbacks ibl kernelActive readRes hasCb ++ next.1, next.2)


/-- A USB endpoint descriptor, restricted to the fields the negotiation
reads (`max_packet_size`, `direction`, `address`). -/
structure EndpointDesc where
  max_packet_size : Nat
  direction : Direction
  address : Nat
deriving DecidableEq, Repr

/-- One alternate-setting descriptor of an interface, restricted to the
fields the negotiation reads. -/
structure InterfaceDesc where
  class_code : Nat
  interface_number : Nat
  setting_number : Nat
  endpoints : List EndpointDesc
deriving DecidableEq, Repr

/-- A USB interface: the list of its alternate-setting descriptors. -/
structure UsbInterface where
  descriptors : List InterfaceDesc
deriving DecidableEq, Repr

/-- A configuration descriptor: its number and its interfaces. -/
structure ConfigDesc where
  number : Nat
  interfaces : List UsbInterface
deriving DecidableEq, Repr

/-- A device descriptor: the identity fields the locator reads. -/
structure UsbDeviceDesc where
  vendor_id : Nat
  product_id : Nat
deriving DecidableEq, Repr

/-- One attached USB device as the environment presents it to `open()`:
the outcome of each rusb call the open sequence performs on it. -/
structure UsbDev where
  device_descriptor : Except UsbError UsbDeviceDesc
  open_result : Except UsbError Unit
  config_descriptor : Except UsbError ConfigDesc
  set_active_configuration : Nat → Except UsbError Unit
  claim_interface : Nat → Except UsbError Unit
  set_alternate_setting : Nat → Nat → Except UsbError Unit

/-- The USB environment: the device list returned by `context.devices()`. -/
structure UsbEnv where
  devices : List UsbDev

/-- The locator (`devices.iter().find(...)`): the first device whose
descriptor reads successfully and matches the vendor/product identity. -/
def find_device (env : UsbEnv) (vid pid : Nat) : Option UsbDev :=
  env.devices.find? fun d =>
    match d.device_descriptor with
    | Except.ok desc => desc.vendor_id == vid && desc.product_id == pid
    | Except.error _ => false

/-- The values the negotiation records into the session:
`self.config`, `self.interface`, `self.setting`, `self.endpoint`. -/
structure NegResult where
  config : Nat
  interface : Nat
  setting : Nat
  endpoint : Nat
deriving DecidableEq, Repr

/-- The negotiation scan of `open()` (the labelled nested loops, lines
71-90): the first alternate-setting descriptor of class 0x03 owning an
IN endpoint whose max packet size equals the input-buffer length; on a
hit it records the configuration number and the descriptor's fields. -/
def negotiate_desc (cfg : ConfigDesc) (ibl : Nat) : Option NegResult :=
  cfg.interfaces.findSome? fun itf =>
    itf.descriptors.findSome? fun idesc =>
      if idesc.class_code == 0x03 then
        (idesc.endpoints.find? fun ep =>
            ep.max_packet_size == ibl && ep.direction == Direction.In).map
          fun ep =>
            { config := cfg.number
              interface := idesc.interface_number
              setting := idesc.setting_number
              endpoint := ep.address }
      else none

/-- The resource events of an `open()` run.  `handleDropped` marks an
early return that drops the local `DeviceHandle`; per rusb semantics,
dropping a `DeviceHandle` first releases every interface it still has
claimed (emitted as `releasedInterface`) and then closes the device.
`handleStored` marks the success path storing the handle into `self`. -/
inductive OpenEvent where
  | deviceOpened
  | claimedInterface (i : Nat)
  | releasedInterface (i : Nat)
  | handleDropped
  | handleStored
deriving DecidableEq, Repr

/-- The interfaces still claimed after a sequence of open events. -/
def claimed_after (events : List OpenEvent) : List Nat :=
  events.foldl
    (fun acc e =>
      match e with
      | OpenEvent.claimedInterface i => acc ++ [i]
      | OpenEvent.releasedInterface i => acc.erase i
      | _ => acc)
    []

/-- The outcome of the portion of `open()` that only depends on
`self.vid`, `self.pid` and `self.input_buffer_len`: the result, the
negotiated values if the scan succeeded, and the resource events. -/
structure OpenCore where
  result : Except UsbError Unit
  neg : Option NegResult
  events : List OpenEvent

/-- The `open()` sequence (main variant, lines 54-128) as a function of
the environment.  Note there is no check of `self.active` anywhere: the
sequence always runs.  Each early `return Err(..)` drops the local
`handle` binding, which releases any claim it held. -/
def open_core (vid pid ibl : Nat) (env : UsbEnv) : OpenCore :=
  match find_device env vid pid with
  | none => { result := Except.error UsbError.NoDevice, neg := none, events := [] }
  | some d =>
    match d.open_result with
    | Except.error e => { result := Except.error e, neg := none, events := [] }
    | Except.ok _ =>
      match d.config_descriptor with
      | Except.error e =>
        { result := Except.error e, neg := none
          events := [OpenEvent.deviceOpened, OpenEvent.handleDropped] }
      | Except.ok cfg =>
        match negotiate_desc cfg ibl with
        | none =>
          -- if !found_interface { return Err(UsbError::Other) }
          { result := Except.error UsbError.Other, neg := none
            events := [OpenEvent.deviceOpened, OpenEvent.handleDropped] }
        | some n =>
          match d.set_active_configuration n.config with
          | Except.error e =>
            { result := Except.error e, neg := some n
              events := [OpenEvent.deviceOpened, OpenEvent.handleDropped] }
          | Except.ok _ =>
            match d.claim_interface n.interface with
            | Except.error e =>
              { result := Except.error e, neg := some n
                events := [OpenEvent.deviceOpened, OpenEvent.handleDropped] }
            | Except.ok _ =>
              match d.set_alternate_setting n.interface n.setting with
              | Except.error e =>
                { result := Except.error e, neg := some n
                  events := [OpenEvent.deviceOpened,
                             OpenEvent.claimedInterface n.interface,
                             OpenEvent.releasedInterface n.interface,
                             OpenEvent.handleDropped] }
              | Except.ok _ =>
                { result := Except.ok (), neg := some n
                  events := [OpenEvent.deviceOpened,
                             OpenEvent.claimedInterface n.interface,
                             OpenEvent.handleStored] }

/-- The outcome of `open()`: the returned result, the updated `self`,
and the resource events. -/
structure OpenOutcome where
  result : Except UsbError Unit
  dev : HidDevice
  events : List OpenEvent

/-- The state updates `open()` applies to `self` given its core outcome:
the negotiated fields are written as soon as the scan hits (even when a
later step still fails); on overall success the handle is stored,
`active` is set, and both background threads are started. -/
def apply_open_outcome (dev : HidDevice) (c : OpenCore) : OpenOutcome :=
  let dev1 :=
    match c.neg with
    | some n =>
      { dev with config := n.config, interface := n.interface,
                 setting := n.setting, endpoint := n.endpoint }
    | none => dev
  let dev2 :=
    match c.result with
    | Except.ok _ =>
      { dev1 with handle_present := true, active := true,
                  read_thread := true, event_thread := true }
    | Except.error _ => dev1
  { result := c.result, dev := dev2, events := c.events }

/-- `HidDevice::open` (main variant, lines 54-128): runs the open
sequence and applies its state updates to `self`.  `stop_flag` is not
touched anywhere in `open()`, and `self.active` is never consulted. -/
def open_dev (dev : HidDevice) (env : UsbEnv) : OpenOutcome :=
  apply_open_outcome dev (open_core dev.vid dev.pid dev.input_buffer_len env)

/-- `HidDevice::close` (main variant, lines 131-149): fails with
`NoDevice` when `self.active` is false; otherwise drops the handle, sets
the stop flag, and joins (takes) both threads.  Note that `self.active`
is never reset to false. -/
def close_dev (dev : HidDevice) : Except UsbError Unit × HidDevice :=
  if dev.active = false then
    (Except.error UsbError.NoDevice, dev)
  else
    (Except.ok (),
      { dev with handle_present := false, stop_flag := true,
                 event_thread := false, read_thread := false })

/-- The kernel-driver events of the synchronous `read()` path. -/
inductive ReadEvent where
  | detachKernel
  | readInterrupt
  | attachKernel
deriving DecidableEq, Repr

/-- `HidDevice::read` (main variant, lines 151-179).  `kdQuery` is the
outcome of `kernel_driver_active`; only `Ok(true)` leads to a detach
(`_ => false` covers `Ok(false)` and errors).  `readRes` is the outcome
of `read_interrupt` as the bytes transferred into the zeroed buffer.
The `?` on `read_interrupt` returns the error before the reattach. -/
def hid_read (dev : HidDevice) (kdQuery : Except UsbError Bool)
    (readRes : Except UsbError (List Nat)) :
    Except UsbError (Nat × List Nat) × List ReadEvent :=
  if dev.active = false then
    (Except.error UsbError.NoDevice, [])
  else
    let hasKd : Bool :=
      match kdQuery with
      | Except.ok true => true
      | _ => false
    let ev1 := if hasKd then [ReadEvent.detachKernel] else []
    match readRes with
    | Except.error e => (Except.error e, ev1 ++ [ReadEvent.readInterrupt])
    | Except.ok bytes =>
      let len := bytes.length
      let buf := bytes ++ List.replicate (dev.input_buffer_len - len) 0
      (Except.ok (len, buf.take len),
        ev1 ++ [ReadEvent.readInterrupt]
            ++ (if hasKd then [ReadEvent.attachKernel] else []))

/-! ### Sample environments used by witnesses and counterexamples -/

/-- A simulated IN endpoint `0x81` with max packet size 64. -/
def sampleEndpoint : EndpointDesc :=
  { max_packet_size := 64, direction := Direction.In, address := 0x81 }

/-- A simulated HID (class 0x03) interface 2, alternate setting 0. -/
def sampleInterfaceDesc : InterfaceDesc :=
  { class_code := 0x03, interface_number := 2, setting_number := 0
    endpoints := [sampleEndpoint] }

/-- A simulated configuration exposing the HID interface. -/
def sampleConfig : ConfigDesc :=
  { number := 1, interfaces := [{ descriptors := [sampleInterfaceDesc] }] }

/-- A simulated attached device on which every rusb call succeeds. -/
def sampleDev : UsbDev :=
  { device_descriptor := Except.ok { vendor_id := 0x28DE, product_id := 0x1205 }
    open_result := Except.ok ()
    config_descriptor := Except.ok sampleConfig
    set_active_configuration := fun _ => Except.ok ()
    claim_interface := fun _ => Except.ok ()
    set_alternate_setting := fun _ _ => Except.ok () }

/-- An environment in which `open()` fully succeeds. -/
def sampleEnv : UsbEnv := { devices := [sampleDev] }

/-- A simulated device whose configuration has no class-0x03 interface. -/
def sampleDevNoHid : UsbDev :=
  { device_descriptor := Except.ok { vendor_id := 0x28DE, product_id := 0x1205 }
    open_result := Except.ok ()
    config_descriptor := Except.ok
      { number := 1
        interfaces := [{ descriptors :=
          [{ class_code := 0xFF, interface_number := 0, setting_number := 0
             endpoints := [sampleEndpoint] }] }] }
    set_active_configuration := fun _ => Except.ok ()
    claim_interface := fun _ => Except.ok ()
    set_alternate_setting := fun _ _ => Except.ok () }

/-- An environment in which the device is found but negotiation fails. -/
def sampleEnvNoHid : UsbEnv := { devices := [sampleDevNoHid] }

/-! ### C1 -/

/-- C1: on an active session with a request no longer than the control
buffer capacity and both transfers succeeding, `request_feature_report`
issues exactly two control transfers in order — SET_REPORT
(`bmRequestType 0x21` = host-to-device/class/interface, `bRequest 0x09`,
`wValue = (3 <<< 8) ||| 0`, `wIndex` = the negotiated interface, data
stage of exactly the control-buffer length holding the zero-padded
request) then GET_REPORT (`bmRequestType 0xa1` =
device-to-host/class/interface, `bRequest 0x01`, same `wValue`/`wIndex`,
reading into a buffer of the same length) — and returns the response
truncated to the transferred length.  The same holds for the alternate
draft, whose control buffer is `input_buffer_len + 1` bytes with byte 0
reserved for the report identifier. -/
theorem request_feature_report_wire_contract
    (dev : HidDevice) (request : List Nat) (written : Nat) (bytes : List Nat)
    (dev2 : Hid2Device) (written2 : Nat) (bytes2 : List Nat)
    (hact : dev.active = true)
    (hlen : request.length ≤ dev.control_buffer_len)
    (h2handle : dev2.handle_present = true)
    (h2len : request.length ≤ dev2.input_buffer_len) :
    request_feature_report dev request (Except.ok written) (Except.ok bytes) =
      (Except.ok (bytes.length, bytes),
        [{ bmRequestType := 0x21
           bRequest := 0x09
           wValue := (3 <<< 8) ||| 0
           wIndex := dev.interface
           dataLen := dev.control_buffer_len
           dataOut := request ++ List.replicate (dev.control_buffer_len - request.length) 0 },
         { bmRequestType := 0xa1
           bRequest := 0x01
           wValue := (3 <<< 8) ||| 0
           wIndex := dev.interface
           dataLen := dev.control_buffer_len
           dataOut := [] }]) ∧
    hid2_request_feature_report dev2 request (Except.ok written2) (Except.ok bytes2) =
      (Except.ok bytes2,
        [{ bmRequestType := 0x21
           bRequest := 0x09
           wValue := (3 <<< 8) ||| 0
           wIndex := dev2.interface
           dataLen := dev2.input_buffer_len + 1
           dataOut := 0 :: (request ++ List.replicate (dev2.input_buffer_len - request.length) 0) },
         { bmRequestType := 0xa1
           bRequest := 0x01
           wValue := (3 <<< 8) ||| 0
           wIndex := dev2.interface
           dataLen := dev2.input_buffer_len + 1
           dataOut := [] }]) := by
  have hnl : ¬ dev.control_buffer_len < request.length := Nat.not_lt.2 hlen
  have h2nl : ¬ dev2.input_buffer_len < request.length := Nat.not_lt.2 h2len
  have hfl : (request ++ List.replicate (dev.control_buffer_len - request.length) 0).length
      = dev.control_buffer_len := by
    simp only [List.length_append, List.length_replicate]
    omega
  have h2fl : (0 :: (request ++ List.replicate (dev2.input_buffer_len - request.length) 0)).length
      = dev2.input_buffer_len + 1 := by
    simp only [List.length_cons, List.length_append, List.length_replicate]
    omega
  constructor
  · simp only [request_feature_report, hact, hnl, if_false, Bool.true_eq_false, if_neg,
      List.take_left, hfl]
    rfl
  · simp only [hid2_request_feature_report, h2handle, h2nl, if_false, Bool.true_eq_false,
      List.take_left, h2fl]
    rfl

/-- Concrete session state for the C1 witness (main variant). -/
def c1dev : HidDevice :=
  { new_hid 0x28DE 0x1205 with active := true, interface := 2 }

/-- Concrete session state for the C1 witness (alternate draft). -/
def c1dev2 : Hid2Device :=
  { handle_present := true, input_buffer_len := 64, interface := 2 }

/-- Witness for C1 at a concrete input: the demo's
`request_feature_report(&[0x85, 0x00])` on interface 2. -/
theorem request_feature_report_wire_contract_witness :
    c1dev.active = true ∧
    ([0x85, 0x00] : List Nat).length ≤ c1dev.control_buffer_len ∧
    c1dev2.handle_present = true ∧
    ([0x85, 0x00] : List Nat).length ≤ c1dev2.input_buffer_len ∧
    (request_feature_report c1dev [0x85, 0x00] (Except.ok 64) (Except.ok [0x11, 0x22, 0x33]) =
        (Except.ok (3, [0x11, 0x22, 0x33]),
          [⟨0x21, 0x09, 0x0300, 2, 64, [0x85, 0x00] ++ List.replicate 62 0⟩,
           ⟨0xa1, 0x01, 0x0300, 2, 64, []⟩]) ∧
      hid2_request_feature_report c1dev2 [0x85, 0x00] (Except.ok 65) (Except.ok [0x44]) =
        (Except.ok [0x44],
          [⟨0x21, 0x09, 0x0300, 2, 65, 0 :: ([0x85, 0x00] ++ List.replicate 62 0)⟩,
           ⟨0xa1, 0x01, 0x0300, 2, 65, []⟩])) :=
  ⟨rfl, by decide, rfl, by decide,
    request_feature_report_wire_contract c1dev [0x85, 0x00] 64 [0x11, 0x22, 0x33]
      c1dev2 65 [0x44] rfl (by decide) rfl (by decide)⟩

/-! ### C8 -/

/-- C8: on an active session, a request strictly longer than the control
buffer capacity makes `request_feature_report` return the
request-too-large error without issuing any control transfer, for every
outcome the device could have produced. -/
theorem request_too_large_no_transfers (dev : HidDevice) (request : List Nat)
    (writeRes : Except UsbError Nat) (readRes : Except UsbError (List Nat))
    (hact : dev.active = true)
    (hlen : dev.control_buffer_len < request.length) :
    request_feature_report dev request writeRes readRes =
      (Except.error
        (FeatureError.msg "Request length is greater than control buffer length"), []) := by
  simp only [request_feature_report, hact, Bool.true_eq_false, if_false, if_pos hlen]

/-- Witness for C8: a 65-byte request against the 64-byte control buffer. -/
theorem request_too_large_no_transfers_witness :
    ({ new_hid 0x28DE 0x1205 with active := true } : HidDevice).active = true ∧
    ({ new_hid 0x28DE 0x1205 with active := true } : HidDevice).control_buffer_len <
      (List.replicate 65 (0x85 : Nat)).length ∧
    request_feature_report { new_hid 0x28DE 0x1205 with active := true }
        (List.replicate 65 (0x85 : Nat)) (Except.ok 0) (Except.ok []) =
      (Except.error
        (FeatureError.msg "Request length is greater than control buffer length"), []) :=
  ⟨rfl, by decide,
    request_too_large_no_transfers _ _ _ _ rfl (by decide)⟩

/-! ### C2 -/

/-- One successful nonzero-length read delivers exactly one callback
invocation carrying exactly the received bytes. -/
theorem iteration_callbacks_ok (ibl : Nat) (kernelActive : Bool) (p : List Nat)
    (hne : p ≠ []) (_hle : p.length ≤ ibl) :
    iteration_callbacks ibl kernelActive (Except.ok p) true = [p] := by
  have hpos : 0 < p.length := List.length_pos.2 hne
  cases kernelActive <;>
    simp [iteration_callbacks, iteration_trace, hpos, List.take_left]

/-- Helper for C2: running the read loop over `packets` (stop flag never
set, no kernel driver) delivers exactly the packets, in order. -/
theorem read_loop_map_ok (ibl : Nat) (packets : List (List Nat))
    (h : ∀ p ∈ packets, p ≠ [] ∧ p.length ≤ ibl) :
    (read_loop ibl true
      (packets.map fun p => (false, false, Except.ok p))).1 = packets := by
  induction packets with
  | nil => simp [read_loop]
  | cons p ps ih =>
    have hp := h p (List.mem_cons_self p ps)
    have hps : ∀ q ∈ ps, q ≠ [] ∧ q.length ≤ ibl := fun q hq =>
      h q (List.mem_cons_of_mem p hq)
    simp only [List.map_cons, read_loop, if_neg (by simp : ¬ (false : Bool) = true)]
    rw [iteration_callbacks_ok ibl false p hp.1 hp.2, ih hps]
    rfl

/-- C2: in every read-loop iteration whose interrupt read succeeds with a
nonzero length, the registered callback is invoked exactly once with
exactly the received bytes (never the zero-padded buffer); hence
simulating `N` inbound packets yields exactly `N` invocations, each
carrying its packet. -/
theorem read_loop_exact_delivery (ibl : Nat) (packets : List (List Nat))
    (h : ∀ p ∈ packets, p ≠ [] ∧ p.length ≤ ibl) :
    (∀ p ∈ packets, ∀ kernelActive : Bool,
      iteration_callbacks ibl kernelActive (Except.ok p) true = [p]) ∧
    (read_loop ibl true
      (packets.map fun p => (false, false, Except.ok p))).1 = packets := by
  refine ⟨fun p hp ka => iteration_callbacks_ok ibl ka p (h p hp).1 (h p hp).2, ?_⟩
  exact read_loop_map_ok ibl packets h

/-- Witness for C2: three packets of lengths 1, 2 and 3 are delivered as
exactly three invocations with exactly those bytes. -/
theorem read_loop_exact_delivery_witness :
    (∀ p ∈ [[0x01], [0x01, 0x02], [0x01, 0x02, 0x03]], p ≠ [] ∧ List.length p ≤ 64) ∧
    (read_loop 64 true
      (([[0x01], [0x01, 0x02], [0x01, 0x02, 0x03]] : List (List Nat)).map
        fun p => (false, false, Except.ok p))).1 =
      [[0x01], [0x01, 0x02], [0x01, 0x02, 0x03]] :=
  ⟨by decide,
    (read_loop_exact_delivery 64 [[0x01], [0x01, 0x02], [0x01, 0x02, 0x03]] (by decide)).2⟩

/-! ### C3 -/

/-- Counterexample to C3: after a successful `open()` the session is
active, yet a second `open()` does not fail (there is no `AlreadyOpen`
error anywhere in the code); it re-runs the whole sequence, claiming the
interface again and succeeding. -/
theorem open_no_already_open_check_cex :
    (open_dev (new_hid 0x28DE 0x1205) sampleEnv).dev.active = true ∧
    (open_dev (open_dev (new_hid 0x28DE 0x1205) sampleEnv).dev sampleEnv).result =
      Except.ok () ∧
    (open_dev (open_dev (new_hid 0x28DE 0x1205) sampleEnv).dev sampleEnv).events =
      [OpenEvent.deviceOpened, OpenEvent.claimedInterface 2, OpenEvent.handleStored] :=
  ⟨rfl, rfl, rfl⟩

/-- Overwrite every lifecycle flag of a session state (the fields
`open()` would have to consult to detect an already-active session). -/
def set_lifecycle (dev : HidDevice) (b hp sf rt et : Bool) : HidDevice :=
  { dev with
      active := b
      handle_present := hp
      stop_flag := sf
      read_thread := rt
      event_thread := et }

/-- C3 (amended): `open()` performs no active-session check: its result
and resource events are independent of every lifecycle flag
(`active`, `handle_present`, `stop_flag`, the thread handles), so calling
`open()` on an already-active session re-runs the full
locate/negotiate/claim sequence instead of failing with `AlreadyOpen`. -/
theorem open_ignores_session_state (dev : HidDevice) (env : UsbEnv)
    (b hp sf rt et : Bool) :
    (open_dev (set_lifecycle dev b hp sf rt et) env).result =
      (open_dev dev env).result ∧
    (open_dev (set_lifecycle dev b hp sf rt et) env).events =
      (open_dev dev env).events :=
  ⟨rfl, rfl⟩

/-! ### C4 -/

/-- C4 is a code bug: `close()` before any `open()` does return the
`NotOpen`-equivalent error (`NoDevice`) with the state untouched, but
`close()` never resets `active` to false, so after a successful
`open(); close()` the session still reports active and a second
`close()` returns `Ok(())` instead of the claimed `NotOpen`. -/
theorem close_twice_returns_ok :
    (close_dev (new_hid 0x28DE 0x1205)).1 = Except.error UsbError.NoDevice ∧
    (close_dev (new_hid 0x28DE 0x1205)).2 = new_hid 0x28DE 0x1205 ∧
    (open_dev (new_hid 0x28DE 0x1205) sampleEnv).result = Except.ok () ∧
    (close_dev (open_dev (new_hid 0x28DE 0x1205) sampleEnv).dev).1 = Except.ok () ∧
    (close_dev (open_dev (new_hid 0x28DE 0x1205) sampleEnv).dev).2.active = true ∧
    (close_dev (close_dev (open_dev (new_hid 0x28DE 0x1205) sampleEnv).dev).2).1 =
      Except.ok () :=
  ⟨rfl, rfl, rfl, rfl, rfl, rfl⟩

/-! ### C6 -/

/-- C6 is a code bug: `close()` does set the stop flag to true, but
`open()` never resets it to false, so a session reopened after a
`close()` starts with the stop flag still true — its fresh read loop
observes the flag on the first check and exits immediately. -/
theorem reopen_keeps_stop_flag_true :
    (new_hid 0x28DE 0x1205).stop_flag = false ∧
    (open_dev (new_hid 0x28DE 0x1205) sampleEnv).dev.stop_flag = false ∧
    (close_dev (open_dev (new_hid 0x28DE 0x1205) sampleEnv).dev).2.stop_flag = true ∧
    (open_dev (close_dev (open_dev (new_hid 0x28DE 0x1205) sampleEnv).dev).2
        sampleEnv).result = Except.ok () ∧
    (open_dev (close_dev (open_dev (new_hid 0x28DE 0x1205) sampleEnv).dev).2
        sampleEnv).dev.stop_flag = true ∧
    read_loop 64 true [(true, false, Except.ok [0x01, 0x02, 0x03])] =
      ([], LoopExit.stopped) :=
  ⟨rfl, rfl, rfl, rfl, rfl, rfl⟩

/-! ### C5 -/

/-- If no alternate-setting descriptor has HID class 0x03, the
negotiation scan finds nothing. -/
theorem negotiate_desc_eq_none_of_no_hid (cfg : ConfigDesc) (ibl : Nat)
    (h : ∀ itf ∈ cfg.interfaces, ∀ idesc ∈ itf.descriptors, idesc.class_code ≠ 0x03) :
    negotiate_desc cfg ibl = none := by
  unfold negotiate_desc
  rw [List.findSome?_eq_none_iff]
  intro itf hitf
  rw [List.findSome?_eq_none_iff]
  intro idesc hidesc
  have hcc := h itf hitf idesc hidesc
  simp [hcc]

/-- Every failing branch of the open sequence returns with no interface
still claimed and without having stored the handle. -/
theorem open_core_error_clean (vid pid ibl : Nat) (env : UsbEnv) (e : UsbError)
    (hres : (open_core vid pid ibl env).result = Except.error e) :
    claimed_after (open_core vid pid ibl env).events = [] ∧
    OpenEvent.handleStored ∉ (open_core vid pid ibl env).events := by
  cases hfd : find_device env vid pid with
  | none => simp [open_core, hfd, claimed_after]
  | some d =>
    cases hor : d.open_result with
    | error e2 => simp [open_core, hfd, hor, claimed_after]
    | ok u =>
      cases hcd : d.config_descriptor with
      | error e2 => simp [open_core, hfd, hor, hcd, claimed_after]
      | ok cfg =>
        cases hng : negotiate_desc cfg ibl with
        | none => simp [open_core, hfd, hor, hcd, hng, claimed_after]
        | some n =>
          cases hsc : d.set_active_configuration n.config with
          | error e2 => simp [open_core, hfd, hor, hcd, hng, hsc, claimed_after]
          | ok u2 =>
            cases hci : d.claim_interface n.interface with
            | error e2 => simp [open_core, hfd, hor, hcd, hng, hsc, hci, claimed_after]
            | ok u3 =>
              cases hsa : d.set_alternate_setting n.interface n.setting with
              | error e2 =>
                simp [open_core, hfd, hor, hcd, hng, hsc, hci, hsa, claimed_after]
              | ok u4 =>
                exfalso
                simp [open_core, hfd, hor, hcd, hng, hsc, hci, hsa] at hres

/-- An `open()` run that fails leaves `active` as it found it (only the
success branch sets it). -/
theorem open_dev_error_active (dev : HidDevice) (env : UsbEnv) (e : UsbError)
    (hres : (open_dev dev env).result = Except.error e) :
    (open_dev dev env).dev.active = dev.active := by
  unfold open_dev at hres ⊢
  rcases hco : open_core dev.vid dev.pid dev.input_buffer_len env with ⟨res, neg, evs⟩
  cases res with
  | ok u => rw [hco] at hres; simp [apply_open_outcome] at hres
  | error e2 =>
    cases neg with
    | none => simp [apply_open_outcome]
    | some n => simp [apply_open_outcome]

/-- C5: whenever a step of the `open()` sequence fails, `open()` returns
the error, the session stays inactive, no interface is left claimed and
the handle was not stored; in particular, when the device is present but
its configuration has no class-0x03 interface, `open()` fails with the
`NoMatchingInterface` error (`UsbError::Other`) and never claims an
interface. -/
theorem open_failure_is_clean (dev : HidDevice) (env : UsbEnv) (e : UsbError)
    (hina : dev.active = false)
    (hres : (open_dev dev env).result = Except.error e) :
    (open_dev dev env).dev.active = false ∧
    claimed_after (open_dev dev env).events = [] ∧
    OpenEvent.handleStored ∉ (open_dev dev env).events ∧
    (∀ d cfg,
      find_device env dev.vid dev.pid = some d →
      d.open_result = Except.ok () →
      d.config_descriptor = Except.ok cfg →
      (∀ itf ∈ cfg.interfaces, ∀ idesc ∈ itf.descriptors, idesc.class_code ≠ 0x03) →
      (open_dev dev env).result = Except.error UsbError.Other ∧
      ∀ i, OpenEvent.claimedInterface i ∉ (open_dev dev env).events) := by
  have hevents : (open_dev dev env).events =
      (open_core dev.vid dev.pid dev.input_buffer_len env).events := rfl
  have hresult : (open_dev dev env).result =
      (open_core dev.vid dev.pid dev.input_buffer_len env).result := rfl
  have hclean := open_core_error_clean dev.vid dev.pid dev.input_buffer_len env e
    (by rw [← hresult]; exact hres)
  refine ⟨by rw [open_dev_error_active dev env e hres]; exact hina,
    by rw [hevents]; exact hclean.1,
    by rw [hevents]; exact hclean.2, ?_⟩
  intro d cfg hfd hor hcd hno
  have hng := negotiate_desc_eq_none_of_no_hid cfg dev.input_buffer_len hno
  have hcore : open_core dev.vid dev.pid dev.input_buffer_len env =
      { result := Except.error UsbError.Other, neg := none
        events := [OpenEvent.deviceOpened, OpenEvent.handleDropped] } := by
    simp [open_core, hfd, hor, hcd, hng]
  refine ⟨by rw [hresult, hcore], ?_⟩
  intro i
  rw [hevents, hcore]
  simp

/-- Witness for C5: a present device whose configuration exposes only a
class-0xFF interface; `open()` fails with `UsbError::Other` and the
session is untouched. -/
theorem open_failure_is_clean_witness :
    (new_hid 0x28DE 0x1205).active = false ∧
    (open_dev (new_hid 0x28DE 0x1205) sampleEnvNoHid).result =
      Except.error UsbError.Other ∧
    ((open_dev (new_hid 0x28DE 0x1205) sampleEnvNoHid).dev.active = false ∧
      claimed_after (open_dev (new_hid 0x28DE 0x1205) sampleEnvNoHid).events = [] ∧
      OpenEvent.handleStored ∉ (open_dev (new_hid 0x28DE 0x1205) sampleEnvNoHid).events ∧
      (∀ d cfg,
        find_device sampleEnvNoHid (new_hid 0x28DE 0x1205).vid (new_hid 0x28DE 0x1205).pid
          = some d →
        d.open_result = Except.ok () →
        d.config_descriptor = Except.ok cfg →
        (∀ itf ∈ cfg.interfaces, ∀ idesc ∈ itf.descriptors, idesc.class_code ≠ 0x03) →
        (open_dev (new_hid 0x28DE 0x1205) sampleEnvNoHid).result =
          Except.error UsbError.Other ∧
        ∀ i, OpenEvent.claimedInterface i ∉
          (open_dev (new_hid 0x28DE 0x1205) sampleEnvNoHid).events)) :=
  ⟨rfl, rfl, open_failure_is_clean (new_hid 0x28DE 0x1205) sampleEnvNoHid
    UsbError.Other rfl rfl⟩

/-! ### C7 -/

/-- Counterexample to C7: a `NoDevice` (device removed) failure of the
interrupt read does not terminate the read loop — the next iteration
still runs and delivers its packet, and the run does not end in the
stopped state; nothing marks the session inactive. -/
theorem read_loop_ignores_device_removed_cex :
    (read_loop 64 true
      [(false, false, Except.error UsbError.NoDevice),
       (false, false, Except.ok [0x2A])]).1 = [[0x2A]] ∧
    (read_loop 64 true
      [(false, false, Except.error UsbError.NoDevice),
       (false, false, Except.ok [0x2A])]).2 ≠ LoopExit.stopped := by
  constructor
  · rfl
  · decide

/-- C7 (amended): every failure of the interrupt read — device removal
exactly like a timeout — falls into the catch-all arm: the iteration
invokes no callback and the loop proceeds to the next iteration; the
loop exits only when it observes the stop flag true. -/
theorem read_loop_error_continues (ibl : Nat) (hasCb kernelActive : Bool)
    (e : UsbError) (readRes : Except UsbError (List Nat))
    (rest : List (Bool × Bool × Except UsbError (List Nat))) :
    read_loop ibl hasCb ((false, kernelActive, Except.error e) :: rest) =
      read_loop ibl hasCb rest ∧
    read_loop ibl hasCb ((true, kernelActive, readRes) :: rest) =
      ([], LoopExit.stopped) := by
  constructor
  · have hcb : iteration_callbacks ibl kernelActive (Except.error e) hasCb = [] := by
      cases kernelActive <;> simp [iteration_callbacks, iteration_trace]
    simp [read_loop, hcb]
  · simp [read_loop]

/-! ### C9 -/

/-- Counterexample to C9: in an iteration with a successful 3-byte read
and a registered callback, the events are, in order, lock acquisition,
the read, the callback invocation, and only then the lock release — the
lock is not released before the callback is invoked. -/
theorem callback_not_outside_lock_cex :
    iteration_trace 64 false (Except.ok [0x01, 0x02, 0x03]) true =
      [ReadLoopEvent.lockAcquire, ReadLoopEvent.readInterrupt,
       ReadLoopEvent.callbackInvoke [0x01, 0x02, 0x03], ReadLoopEvent.lockRelease] ∧
    ¬ (iteration_trace 64 false (Except.ok [0x01, 0x02, 0x03]) true).findIdx
        isReleaseEvent <
      (iteration_trace 64 false (Except.ok [0x01, 0x02, 0x03]) true).findIdx
        isCallbackEvent := by
  constructor
  · rfl
  · decide

/-- C9 (amended): in every iteration that invokes the callback, the
callback invocation happens strictly inside the Transport Handle lock
scope: the iteration's first event is the lock acquisition and the
callback's position precedes the lock release's. -/
theorem callback_invoked_inside_lock (ibl : Nat) (kernelActive : Bool)
    (p : List Nat) (hne : p ≠ []) :
    (iteration_trace ibl kernelActive (Except.ok p) true).head? =
      some ReadLoopEvent.lockAcquire ∧
    (iteration_trace ibl kernelActive (Except.ok p) true).findIdx isCallbackEvent <
      (iteration_trace ibl kernelActive (Except.ok p) true).findIdx isReleaseEvent := by
  have hpos : 0 < p.length := List.length_pos.2 hne
  cases kernelActive <;>
    simp [iteration_trace, hpos, List.findIdx_cons, isCallbackEvent, isReleaseEvent]

/-- Witness for C9 (amended) at a concrete packet. -/
theorem callback_invoked_inside_lock_witness :
    ([0x01, 0x02] : List Nat) ≠ [] ∧
    ((iteration_trace 64 true (Except.ok [0x01, 0x02]) true).head? =
        some ReadLoopEvent.lockAcquire ∧
      (iteration_trace 64 true (Except.ok [0x01, 0x02]) true).findIdx isCallbackEvent <
        (iteration_trace 64 true (Except.ok [0x01, 0x02]) true).findIdx isReleaseEvent) :=
  ⟨by decide, callback_invoked_inside_lock 64 true [0x01, 0x02] (by decide)⟩

/-! ### C10 -/

/-- C10: in the synchronous `read()` on an active session with an active
kernel driver (detached before the read), a failing interrupt read makes
`read()` return the error immediately — the events are exactly the
detach and the read attempt, with no reattach — while on a successful
read the driver is reattached after the read. -/
theorem read_error_skips_reattach (dev : HidDevice)
    (readRes : Except UsbError (List Nat))
    (hact : dev.active = true) :
    (∀ e, readRes = Except.error e →
      hid_read dev (Except.ok true) readRes =
        (Except.error e, [ReadEvent.detachKernel, ReadEvent.readInterrupt])) ∧
    (∀ bytes, readRes = Except.ok bytes →
      (hid_read dev (Except.ok true) readRes).2 =
        [ReadEvent.detachKernel, ReadEvent.readInterrupt, ReadEvent.attachKernel]) := by
  constructor
  · rintro e rfl
    simp [hid_read, hact]
  · rintro bytes rfl
    simp [hid_read, hact]

/-- Witness for C10: a timed-out read on an active session returns the
timeout error with no reattach event. -/
theorem read_error_skips_reattach_witness :
    ({ new_hid 0x28DE 0x1205 with active := true } : HidDevice).active = true ∧
    hid_read { new_hid 0x28DE 0x1205 with active := true } (Except.ok true)
        (Except.error UsbError.Timeout) =
      (Except.error UsbError.Timeout,
        [ReadEvent.detachKernel, ReadEvent.readInterrupt]) :=
  ⟨rfl,
    (read_error_skips_reattach { new_hid 0x28DE 0x1205 with active := true }
      (Except.error UsbError.Timeout) rfl).1 UsbError.Timeout rfl⟩
